import Mathlib

/-!
Verification of the e-commerce microservices platform
(product-service, cart-service, order-service).

Each Express handler is embedded as a pure Lean function over explicit
store state:
  * product-service (`index.js`, port 3000): a fixed seeded `products`
    list, `GET /products` and `GET /products/:id`.
  * cart-service (`index.js`, port 3001): `carts`, an object keyed by
    userId holding arrays of `{productId, quantity}` lines, with
    `POST /cart/:userId`, `DELETE /cart/:userId/:productId`,
    `GET /cart/:userId`.
  * order-service (`index.js`, port 3002): `orders`, an append-only
    array, with `POST /orders` and `GET /orders/:orderId`.

JavaScript's `parseInt` (radix unspecified) is modelled by `parseIntJs`,
returning `none` for NaN; a strict equality `x === parseInt(s)` against a
NaN parse is always false, which the lookup functions reflect by
short-circuiting the `none` case to a not-found result.
-/

namespace ECommerce

/-! ### The parseInt model -/

/-- Whitespace skipped by JavaScript `parseInt` before reading the number. -/
def isJsSpace (c : Char) : Bool :=
  c = ' ' || c = '\t' || c = '\n' || c = '\r' || c = '\x0b' || c = '\x0c'

/-- Value of a decimal digit character, `none` on any other character. -/
def decDigitVal (c : Char) : Option Nat :=
  if '0' ≤ c ∧ c ≤ '9' then some (c.toNat - '0'.toNat) else none

/-- Value of a hexadecimal digit character, `none` on any other character. -/
def hexDigitVal (c : Char) : Option Nat :=
  if '0' ≤ c ∧ c ≤ '9' then some (c.toNat - '0'.toNat)
  else if 'a' ≤ c ∧ c ≤ 'f' then some (c.toNat - 'a'.toNat + 10)
  else if 'A' ≤ c ∧ c ≤ 'F' then some (c.toNat - 'A'.toNat + 10)
  else none

/-- Longest prefix of digit values under a given digit reader. -/
def takeDigits (dv : Char → Option Nat) : List Char → List Nat
  | [] => []
  | c :: cs =>
    match dv c with
    | some d => d :: takeDigits dv cs
    | none => []

/-- Fold a digit-value list into a natural number in the given base. -/
def digitsToNat (base : Nat) (ds : List Nat) : Nat :=
  ds.foldl (fun acc d => acc * base + d) 0

/-- Parse a digit prefix; `none` (NaN) when no digit is present. -/
def parseIntCore (base : Nat) (dv : Char → Option Nat) (cs : List Char) : Option Nat :=
  match takeDigits dv cs with
  | [] => none
  | ds => some (digitsToNat base ds)

/-- Model of JavaScript `parseInt(s)` with unspecified radix: skip leading
whitespace, read an optional sign, auto-detect a `0x`/`0X` hexadecimal
prefix, then read the longest digit prefix; `none` models NaN. -/
def parseIntJs (s : String) : Option Int :=
  let cs := s.toList.dropWhile isJsSpace
  let signAndRest : Int × List Char :=
    match cs with
    | '-' :: rest => (-1, rest)
    | '+' :: rest => (1, rest)
    | _ => (1, cs)
  let body : Option Nat :=
    match signAndRest.2 with
    | '0' :: 'x' :: rest => parseIntCore 16 hexDigitVal rest
    | '0' :: 'X' :: rest => parseIntCore 16 hexDigitVal rest
    | rest => parseIntCore 10 decDigitVal rest
  body.map (fun n => signAndRest.1 * (n : Int))

/-! ### Product service (`product-service/index.js`) -/

/-- One record of the seeded product catalog: `{id, name, price}`. -/
structure CatalogItem where
  id : Int
  name : String
  price : Int
  deriving Repr, DecidableEq

/-- The module-level seed list `products`, fixed at process start. -/
def products : List CatalogItem :=
  [⟨1, "Product A", 10⟩, ⟨2, "Product B", 20⟩]

/-- Handler for `GET /products`: returns the seeded list verbatim. -/
def listAll : List CatalogItem := products

/-- Lookup step of `GET /products/:id`: `products.find(p => p.id === n)`. -/
def getProductById (n : Int) : Option CatalogItem :=
  products.find? (fun p => p.id == n)

/-- Handler for `GET /products/:id`: the path parameter goes through
`parseInt`; a NaN parse makes every strict equality in `find` false, so
the request falls into the 404 branch. -/
def getProduct (idParam : String) : Except String CatalogItem :=
  match parseIntJs idParam with
  | none => .error "Product not found"
  | some n =>
    match getProductById n with
    | some p => .ok p
    | none => .error "Product not found"

/-! ### Cart service (`cart-service/index.js`) -/

/-- One cart line `{productId, quantity}`, pushed verbatim from the body. -/
structure CartLine where
  productId : Int
  quantity : Int
  deriving Repr, DecidableEq

/-- The `carts` object: a map from userId to that user's line array;
`none` models the key being absent from the object. -/
abbrev Carts := String → Option (List CartLine)

/-- The initial empty `carts = {}`. -/
def emptyCarts : Carts := fun _ => none

/-- Handler for `GET /cart/:userId`: `carts[userId] || []`. -/
def getCart (carts : Carts) (userId : String) : List CartLine :=
  (carts userId).getD []

/-- Handler for `POST /cart/:userId`: create the array if absent, push
the new line, and answer with the full updated cart. -/
def addItem (carts : Carts) (userId : String) (productId quantity : Int) :
    Carts × List CartLine :=
  let cart := (carts userId).getD []
  let newCart := cart ++ [⟨productId, quantity⟩]
  (fun u => if u = userId then some newCart else carts u, newCart)

/-- The filter predicate `item.productId !== parseInt(productId)`: against
a NaN parse the strict inequality is always true, so every line is kept. -/
def keepLine (pid? : Option Int) (line : CartLine) : Bool :=
  match pid? with
  | some pid => line.productId != pid
  | none => true

/-- Outcome of the `DELETE /cart/:userId/:productId` handler. -/
inductive CartResult where
  | removed (cart : List CartLine)
  | notFound
  deriving Repr, DecidableEq

/-- Handler for `DELETE /cart/:userId/:productId`: if the cart exists,
replace it by the lines whose productId is not strictly equal to the
parsed path parameter and answer with the updated cart; otherwise 404. -/
def removeItem (carts : Carts) (userId productIdParam : String) :
    Carts × CartResult :=
  match carts userId with
  | some cart =>
    let newCart := cart.filter (keepLine (parseIntJs productIdParam))
    (fun u => if u = userId then some newCart else carts u, .removed newCart)
  | none => (carts, .notFound)

/-! ### Order service (`order-service/index.js`) -/

/-- One order record `{orderId, userId, items, status}`; the items payload
is an opaque value of an arbitrary type `ι`, stored verbatim. -/
structure Order (ι : Type) where
  orderId : Nat
  userId : String
  items : ι
  status : String

/-- Handler for `POST /orders`: `orderId = orders.length + 1`, push the
record with status `"pending"`, answer with the new identifier. -/
def createOrder {ι : Type} (orders : List (Order ι)) (userId : String) (items : ι) :
    List (Order ι) × Nat :=
  let orderId := orders.length + 1
  (orders ++ [⟨orderId, userId, items, "pending"⟩], orderId)

/-- Lookup step of `GET /orders/:orderId`:
`orders.find(o => o.orderId === n)`. -/
def getOrderById {ι : Type} (orders : List (Order ι)) (n : Int) : Option (Order ι) :=
  orders.find? (fun o => (o.orderId : Int) == n)

/-- Handler for `GET /orders/:orderId`: the path parameter goes through
`parseInt`; a NaN parse fails every strict equality, giving the 404. -/
def getOrder {ι : Type} (orders : List (Order ι)) (orderIdParam : String) :
    Except String (Order ι) :=
  match parseIntJs orderIdParam with
  | none => .error "Order not found"
  | some n =>
    match getOrderById orders n with
    | some o => .ok o
    | none => .error "Order not found"

/-! ### Sequences of operations -/

/-- Run a sequence of `createOrder` calls, collecting the returned ids. -/
def applyCreates {ι : Type} (orders : List (Order ι)) :
    List (String × ι) → List (Order ι) × List Nat
  | [] => (orders, [])
  | (u, it) :: rest =>
    let p := createOrder orders u it
    let q := applyCreates p.1 rest
    (q.1, p.2 :: q.2)

/-- Run a sequence of `addItem` calls for one user. -/
def applyAdds (carts : Carts) (userId : String) : List (Int × Int) → Carts
  | [] => carts
  | (p, q) :: rest => applyAdds (addItem carts userId p q).1 userId rest

/-- Well-formedness of the order store: the record at index `i` carries
orderIdentifier `i + 1`; this holds for every store reachable from the
empty store by `createOrder` calls. -/
def OrdersWf {ι : Type} (orders : List (Order ι)) : Prop :=
  ∀ i (h : i < orders.length), (orders.get ⟨i, h⟩).orderId = i + 1

/-! ### The three services side by side -/

/-- Combined state of the three stores; each service owns its own field
and no handler touches another service's field. -/
structure SysState (ι : Type) where
  products : List CatalogItem
  carts : Carts
  orders : List (Order ι)

/-- Every state-touching request any of the three services accepts. -/
inductive SysOp (ι : Type) where
  | addItem (userId : String) (productId quantity : Int)
  | removeItem (userId productIdParam : String)
  | getCart (userId : String)
  | createOrder (userId : String) (items : ι)
  | getOrder (orderIdParam : String)
  | listProducts
  | getProduct (idParam : String)

/-- State at process start: seeded catalog, no carts, no orders. -/
def initState (ι : Type) : SysState ι :=
  ⟨products, emptyCarts, []⟩

/-- Dispatch one request to the owning service; read-only handlers leave
the state unchanged. -/
def SysState.step {ι : Type} (s : SysState ι) : SysOp ι → SysState ι
  | .addItem u p q => { s with carts := (addItem s.carts u p q).1 }
  | .removeItem u pid => { s with carts := (removeItem s.carts u pid).1 }
  | .createOrder u it => { s with orders := (createOrder s.orders u it).1 }
  | .getCart _ => s
  | .getOrder _ => s
  | .listProducts => s
  | .getProduct _ => s

/-- Run a sequence of requests against the combined state. -/
def runOps {ι : Type} (s : SysState ι) (ops : List (SysOp ι)) : SysState ι :=
  ops.foldl SysState.step s

/-- Handler for `GET /products` seen from the combined state. -/
def SysState.listAll {ι : Type} (s : SysState ι) : List CatalogItem :=
  s.products

/-! ### Helper lemmas -/

theorem applyCreates_snd {ι : Type} (orders : List (Order ι)) (reqs : List (String × ι)) :
    (applyCreates orders reqs).2 = List.range' (orders.length + 1) reqs.length := by
  induction reqs generalizing orders with
  | nil => rfl
  | cons r rest ih =>
    obtain ⟨u, it⟩ := r
    simp [applyCreates, createOrder, List.range', ih]

theorem applyCreates_status {ι : Type} (orders : List (Order ι)) (reqs : List (String × ι)) :
    ∀ o ∈ (applyCreates orders reqs).1, o ∈ orders ∨ o.status = "pending" := by
  induction reqs generalizing orders with
  | nil => exact fun o ho => Or.inl ho
  | cons r rest ih =>
    obtain ⟨u, it⟩ := r
    intro o ho
    rcases ih (createOrder orders u it).1 o ho with hmem | hpend
    · simp only [createOrder, List.mem_append, List.mem_singleton] at hmem
      rcases hmem with h | h
      · exact Or.inl h
      · exact Or.inr (by rw [h])
    · exact Or.inr hpend

theorem keepLine_some (pid : Int) :
    keepLine (some pid) = fun l => l.productId != pid := rfl

theorem getCart_applyAdds (carts : Carts) (userId : String) (adds : List (Int × Int)) :
    getCart (applyAdds carts userId adds) userId =
      getCart carts userId ++ adds.map (fun pq => CartLine.mk pq.1 pq.2) := by
  induction adds generalizing carts with
  | nil => simp [applyAdds]
  | cons a rest ih =>
    obtain ⟨p, q⟩ := a
    rw [applyAdds, ih]
    simp [getCart, addItem]

/-! ### The claims -/

/-- C1: starting from the empty order store, a sequence of single-threaded
`createOrder` calls returns identifiers `1, 2, ..., n` — strictly
increasing, unique, starting at 1 — with each identifier assigned as
count-of-existing-orders + 1 and each stored order given status
`"pending"`. -/
theorem createOrder_sequential_ids {ι : Type} (reqs : List (String × ι)) :
    (applyCreates ([] : List (Order ι)) reqs).2 = List.range' 1 reqs.length ∧
    List.Pairwise (· < ·) (applyCreates ([] : List (Order ι)) reqs).2 ∧
    ((applyCreates ([] : List (Order ι)) reqs).2).Nodup ∧
    (∀ (orders : List (Order ι)) (u : String) (it : ι),
      (createOrder orders u it).2 = orders.length + 1) ∧
    (∀ o ∈ (applyCreates ([] : List (Order ι)) reqs).1, o.status = "pending") := by
  have hids := applyCreates_snd ([] : List (Order ι)) reqs
  simp only [List.length_nil, Nat.zero_add] at hids
  refine ⟨hids, ?_, ?_, fun orders u it => rfl, ?_⟩
  · rw [hids]; exact List.pairwise_lt_range' 1 reqs.length
  · rw [hids]; exact List.nodup_range' 1 reqs.length
  · intro o ho
    rcases applyCreates_status ([] : List (Order ι)) reqs o ho with h | h
    · cases h
    · exact h

/-- C2: for any well-formed order store (in particular any store built by
`createOrder` calls from empty), `createOrder` followed by `getOrder` on
the identifier it returned yields exactly the record
`{orderId := returnedId, userId, items, status := "pending"}`, the items
payload verbatim (the embedding is parametric in the payload type, so the
payload can never be interpreted). -/
theorem createOrder_getOrder_roundtrip {ι : Type} (orders : List (Order ι))
    (hwf : OrdersWf orders) (u : String) (it : ι) :
    getOrderById (createOrder orders u it).1 (((createOrder orders u it).2 : Nat) : Int) =
      some ⟨(createOrder orders u it).2, u, it, "pending"⟩ := by
  have hnone : orders.find?
      (fun o => ((o.orderId : Nat) : Int) == ((orders.length + 1 : Nat) : Int)) = none := by
    rw [List.find?_eq_none]
    intro o ho
    obtain ⟨i, hi, rfl⟩ := List.mem_iff_get.mp ho
    have hid := hwf i.1 i.2
    simp only [hid, beq_iff_eq, Nat.cast_inj]
    omega
  unfold createOrder getOrderById
  rw [List.find?_append, hnone, Option.none_or]
  simp

/-- C3: `removeItem` on a userId with no cart signals NotFound and leaves
the store unchanged; on an existing cart with a productId parameter that
parses, it stores and returns exactly the lines whose productIdentifier
differs from that productId — a filter, so a subsequence of the original
cart in its original relative order with every matching line removed and
every non-matching line kept — returning success even when nothing
remains. -/
theorem removeItem_spec (carts : Carts) (userId productIdParam : String) :
    (carts userId = none →
      removeItem carts userId productIdParam = (carts, CartResult.notFound)) ∧
    (∀ (cart : List CartLine) (pid : Int),
      carts userId = some cart → parseIntJs productIdParam = some pid →
      removeItem carts userId productIdParam =
        (fun u =>
          if u = userId then some (cart.filter (fun l => l.productId != pid)) else carts u,
          CartResult.removed (cart.filter (fun l => l.productId != pid))) ∧
      List.Sublist (cart.filter (fun l => l.productId != pid)) cart ∧
      (∀ l ∈ cart.filter (fun l => l.productId != pid), l.productId ≠ pid) ∧
      (∀ l ∈ cart, l.productId ≠ pid →
        l ∈ cart.filter (fun l => l.productId != pid))) := by
  constructor
  · intro h
    simp [removeItem, h]
  · intro cart pid hc hp
    refine ⟨by simp [removeItem, hc, hp, keepLine_some], List.filter_sublist _, ?_, ?_⟩
    · intro l hl
      have := (List.mem_filter.mp hl).2
      simpa [bne_iff_ne] using this
    · intro l hl hne
      exact List.mem_filter.mpr ⟨hl, by simpa [bne_iff_ne] using hne⟩

/-- C4: `getById` returns the exact seeded record for the two seeded
identifiers, and NotFound for every other integer identifier; through the
handler, the latter is the 404 `"Product not found"` response. -/
theorem getProductById_spec (n : Int) (h1 : n ≠ 1) (h2 : n ≠ 2) :
    getProductById 1 = some ⟨1, "Product A", 10⟩ ∧
    getProductById 2 = some ⟨2, "Product B", 20⟩ ∧
    getProductById n = none ∧
    (∀ s, parseIntJs s = some n → getProduct s = .error "Product not found") := by
  have e1 : ((1 : Int) == n) = false := by
    rw [beq_eq_false_iff_ne]; exact fun e => h1 e.symm
  have e2 : ((2 : Int) == n) = false := by
    rw [beq_eq_false_iff_ne]; exact fun e => h2 e.symm
  have hnone : getProductById n = none := by
    simp [getProductById, products, List.find?, e1, e2]
  refine ⟨rfl, rfl, hnone, ?_⟩
  intro s hs
  simp [getProduct, hs, hnone]

/-- C5: for every userId, running any finite sequence of `addItem` calls
for that userId from the empty store makes `getCart` return exactly the
added lines in call order, duplicates included as separate lines; and
every single `addItem` (cart present or absent) returns the full updated
cart, which is the previous cart with the new line appended. -/
theorem addItem_getCart_spec (userId : String) (adds : List (Int × Int)) :
    getCart (applyAdds emptyCarts userId adds) userId =
      adds.map (fun pq => CartLine.mk pq.1 pq.2) ∧
    (∀ (carts : Carts) (u : String) (p q : Int),
      (addItem carts u p q).2 = getCart (addItem carts u p q).1 u ∧
      (addItem carts u p q).2 = getCart carts u ++ [⟨p, q⟩]) := by
  constructor
  · simpa [getCart, emptyCarts] using getCart_applyAdds emptyCarts userId adds
  · intro carts u p q
    constructor <;> simp [addItem, getCart]

/-- C6: on the same absent-cart state, `getCart` returns the empty
sequence (it can never signal NotFound) while `removeItem` signals
NotFound — the two operations are asymmetric. -/
theorem getCart_removeItem_asymmetry (carts : Carts) (userId : String)
    (h : carts userId = none) :
    getCart carts userId = [] ∧
    ∀ productIdParam, removeItem carts userId productIdParam = (carts, CartResult.notFound) := by
  constructor
  · simp [getCart, h]
  · intro s
    simp [removeItem, h]

/-- C7: `listAll` returns the two seeded catalog records in seed order
after any sequence of cart and order operations: the catalog field of the
combined state is never written by any handler. -/
theorem listAll_cross_store_isolation {ι : Type} (ops : List (SysOp ι)) :
    (runOps (initState ι) ops).listAll =
      [⟨1, "Product A", 10⟩, ⟨2, "Product B", 20⟩] := by
  have key : ∀ (s : SysState ι) (l : List (SysOp ι)), (runOps s l).products = s.products := by
    intro s l
    induction l generalizing s with
    | nil => rfl
    | cons op rest ih =>
      calc (runOps s (op :: rest)).products
          = (runOps (SysState.step s op) rest).products := rfl
        _ = (SysState.step s op).products := ih _
        _ = s.products := by cases op <;> rfl
  show (runOps (initState ι) ops).products = _
  rw [key]
  rfl

/-- C8: a path parameter that `parseInt` cannot parse (NaN) fails every
strict-equality lookup, so both `GET /products/:id` and
`GET /orders/:orderId` fall into the NotFound path; the handlers have no
other failure outcome, so no 400-class response exists. -/
theorem nonNumeric_param_notFound (s : String) (h : parseIntJs s = none) :
    getProduct s = .error "Product not found" ∧
    ∀ {ι : Type} (orders : List (Order ι)), getOrder orders s = .error "Order not found" := by
  constructor
  · simp [getProduct, h]
  · intro ι orders
    simp [getOrder, h]

/-- C10: cart operations of one user never touch another user's entry:
for distinct userIds, `addItem` and `removeItem` on the second user leave
the first user's entry (present or absent) exactly as it was. -/
theorem cart_per_user_isolation (carts : Carts) (u u' : String) (h : u ≠ u')
    (p q : Int) (productIdParam : String) :
    (addItem carts u' p q).1 u = carts u ∧
    (removeItem carts u' productIdParam).1 u = carts u := by
  constructor
  · simp [addItem, h]
  · unfold removeItem
    cases hc : carts u' <;> simp [h]

/-! ### Witnesses -/

/-- Witness for C2: the round-trip on the empty store with
`userId = "1"` and an empty items payload. -/
theorem createOrder_getOrder_roundtrip_witness :
    getOrderById (createOrder ([] : List (Order (List Int))) "1" []).1
        (((createOrder ([] : List (Order (List Int))) "1" []).2 : Nat) : Int) =
      some ⟨1, "1", [], "pending"⟩ :=
  createOrder_getOrder_roundtrip ([] : List (Order (List Int)))
    (fun i h => absurd h (by simp)) "1" []

/-- Witness for C3: the absent-cart branch on the empty store, and the
existing-cart branch on the cart `[{1, 5}, {2, 7}]` of user `"123"`. -/
theorem removeItem_spec_witness :
    removeItem emptyCarts "123" "1" = (emptyCarts, CartResult.notFound) ∧
    (removeItem (addItem (addItem emptyCarts "123" 1 5).1 "123" 2 7).1 "123" "1").2 =
      CartResult.removed [⟨2, 7⟩] := by
  constructor
  · exact (removeItem_spec emptyCarts "123" "1").1 rfl
  · have h := ((removeItem_spec (addItem (addItem emptyCarts "123" 1 5).1 "123" 2 7).1
      "123" "1").2 [⟨1, 5⟩, ⟨2, 7⟩] 1 (by simp [addItem, emptyCarts]) (by decide)).1
    rw [congrArg Prod.snd h]
    decide

/-- Witness for C4: identifier 5 is neither seeded identifier and gets
NotFound, also through the handler on the parameter string `"5"`. -/
theorem getProductById_spec_witness :
    getProductById 5 = none ∧ getProduct "5" = .error "Product not found" := by
  have h := getProductById_spec 5 (by decide) (by decide)
  exact ⟨h.2.2.1, h.2.2.2 "5" (by decide)⟩

/-- Witness for C6: user `"alice"` has no cart in the empty store. -/
theorem getCart_removeItem_asymmetry_witness :
    getCart emptyCarts "alice" = [] ∧
    removeItem emptyCarts "alice" "7" = (emptyCarts, CartResult.notFound) := by
  have h := getCart_removeItem_asymmetry emptyCarts "alice" rfl
  exact ⟨h.1, h.2 "7"⟩

/-- Witness for C8: the parameter `"abc"` parses to NaN and both lookups
answer NotFound. -/
theorem nonNumeric_param_notFound_witness :
    getProduct "abc" = .error "Product not found" ∧
    getOrder ([] : List (Order Unit)) "abc" = .error "Order not found" := by
  have h := nonNumeric_param_notFound "abc" (by decide)
  exact ⟨h.1, h.2 []⟩

/-- Witness for C10: operations of user `"bob"` leave the absent cart of
user `"alice"` absent. -/
theorem cart_per_user_isolation_witness :
    (addItem emptyCarts "bob" 1 2).1 "alice" = emptyCarts "alice" ∧
    (removeItem emptyCarts "bob" "3").1 "alice" = emptyCarts "alice" :=
  cart_per_user_isolation emptyCarts "alice" "bob" (by decide) 1 2 "3"

end ECommerce
